import Mathlib

/-!
Verification of the Ship360 chat API rate-shopping, label, thread-store and
credential components, shallowly embedded from
`app/services/ship_360_service.py`, `app/services/thread_store.py`,
`app/plugins/shipping_plugin.py` and
`app/models/create_shipping_label_request.py`.

Python floats are modelled as rationals, Python `dict` payload values as an
explicit JSON-like value type, and Python exceptions (`TypeError`,
`ValueError`) as an `Except` layer.
-/

namespace Ship360

/-- Python exceptions that the embedded code can raise. -/
inductive PyErr where
  | typeError
  | valueError
deriving DecidableEq, Repr

/-- A JSON-ish value as it appears in a provider response field:
a number (Python int/float, modelled as a rational), a string, or `null`. -/
inductive PyVal where
  | num (q : ℚ)
  | str (s : String)
  | null
deriving DecidableEq, Repr

/-- Numeric value of the characters of a digit string, most significant first. -/
def digitsVal (cs : List Char) : Nat :=
  cs.foldl (fun n c => 10 * n + (c.toNat - 48)) 0

/-- Embeds Python `int(s)` on a trimmed string: an optional sign followed by
one or more digits; anything else raises `ValueError` (represented by `none`). -/
def parseIntStr (s : String) : Option Int :=
  let cs := s.trim.toList
  match cs with
  | '-' :: rest =>
      if rest ≠ [] ∧ rest.all Char.isDigit then some (-(digitsVal rest : Int)) else none
  | '+' :: rest =>
      if rest ≠ [] ∧ rest.all Char.isDigit then some ((digitsVal rest : Int)) else none
  | _ =>
      if cs ≠ [] ∧ cs.all Char.isDigit then some ((digitsVal cs : Int)) else none

/-- Unsigned decimal literal `digits[.digits]` (at least one digit overall),
as accepted by Python `float`. Exponents and `inf`/`nan` are not modelled;
no value of those forms occurs in the embedded data. -/
def parseUnsignedFloat (cs : List Char) : Option ℚ :=
  let intPart := cs.takeWhile Char.isDigit
  let rest := cs.dropWhile Char.isDigit
  match rest with
  | [] => if intPart ≠ [] then some ((digitsVal intPart : ℚ)) else none
  | '.' :: frac =>
      if (intPart ≠ [] ∨ frac ≠ []) ∧ frac.all Char.isDigit then
        some ((digitsVal intPart : ℚ) + (digitsVal frac : ℚ) / (10 ^ frac.length))
      else none
  | _ => none

/-- Embeds Python `float(s)` on a string (whitespace-trimmed, optional sign). -/
def parseFloatStr (s : String) : Option ℚ :=
  match s.trim.toList with
  | '-' :: rest => (parseUnsignedFloat rest).map (fun q => -q)
  | '+' :: rest => parseUnsignedFloat rest
  | cs => parseUnsignedFloat cs

/-- Embeds the Python comparison `v > c` for a payload value `v` against a
number `c`: numbers compare, a string or `None` raises `TypeError`. -/
def pyGT (v : PyVal) (c : ℚ) : Except PyErr Bool :=
  match v with
  | .num q => .ok (decide (c < q))
  | _ => .error .typeError

/-- Embeds the Python comparison `v <= c` for a payload value `v` against a
number `c`: numbers compare, a string or `None` raises `TypeError`. -/
def pyLE (v : PyVal) (c : ℚ) : Except PyErr Bool :=
  match v with
  | .num q => .ok (decide (q ≤ c))
  | _ => .error .typeError

/-- Truncation toward zero, as Python `int()` applied to a float. -/
def truncRat (q : ℚ) : Int :=
  if 0 ≤ q then ⌊q⌋ else ⌈q⌉

/-- Embeds Python `int(v)`: a number truncates toward zero, a string is parsed
as an integer literal (`ValueError` otherwise), `None` raises `TypeError`. -/
def pyInt (v : PyVal) : Except PyErr Int :=
  match v with
  | .num q => .ok (truncRat q)
  | .str s =>
      match parseIntStr s with
      | some n => .ok n
      | none => .error .valueError
  | .null => .error .typeError

/-- Embeds Python `float(v)`: a number is returned as is, a string is parsed
as a decimal literal (`ValueError` otherwise), `None` raises `TypeError`. -/
def pyFloat (v : PyVal) : Except PyErr ℚ :=
  match v with
  | .num q => .ok q
  | .str s =>
      match parseFloatStr s with
      | some q => .ok q
      | none => .error .valueError
  | .null => .error .typeError

/-- The `deliveryCommitment` object of a rate quote; either estimated-days
field may be absent from the JSON object. -/
structure DeliveryCommitment where
  minEstimatedNumberOfDays : Option PyVal
  maxEstimatedNumberOfDays : Option PyVal
deriving DecidableEq, Repr

/-- A rate quote from the provider's `rates` array. `carrier` stands for the
identifying payload of the quote; `totalCarrierCharge` and
`deliveryCommitment` may be absent from the JSON object. -/
structure Quote where
  carrier : String
  totalCarrierCharge : Option PyVal
  deliveryCommitment : Option DeliveryCommitment
deriving DecidableEq, Repr

/-- Embeds `option.get("totalCarrierCharge", 0)`. -/
def getCharge (q : Quote) : PyVal :=
  q.totalCarrierCharge.getD (.num 0)

/-- The numeric value of a quote's charge (0 when absent or non-numeric);
used only to state ordering, every quote it is applied to in the theorems has
a numeric charge. -/
def chargeQ (q : Quote) : ℚ :=
  match getCharge q with
  | .num c => c
  | _ => 0

/-- Embeds `option.get("deliveryCommitment", {})`. -/
def getCommitment (q : Quote) : DeliveryCommitment :=
  q.deliveryCommitment.getD ⟨none, none⟩

/-- Embeds `int(delivery_commitment.get("minEstimatedNumberOfDays", 0))`. -/
def quoteMinDays (q : Quote) : Except PyErr Int :=
  pyInt ((getCommitment q).minEstimatedNumberOfDays.getD (.num 0))

/-- Embeds `int(delivery_commitment.get("maxEstimatedNumberOfDays", 0))`. -/
def quoteMaxDays (q : Quote) : Except PyErr Int :=
  pyInt ((getCommitment q).maxEstimatedNumberOfDays.getD (.num 0))

/-- Embeds the `ComparisonOperator` enum of `ship_360_service.py`. -/
inductive ComparisonOperator where
  | less_than
  | less_than_or_equal
deriving DecidableEq, Repr

/-- Embeds `ComparisonOperator(duration_operator)`: constructing the enum from
a string raises `ValueError` on any other string. -/
def parseComparisonOperator (s : String) : Except PyErr ComparisonOperator :=
  if s = "less_than" then .ok .less_than
  else if s = "less_than_or_equal" then .ok .less_than_or_equal
  else .error .valueError

/-- A Python list comprehension `[a for a in l if p a]` over a predicate whose
evaluation can raise: elements are tested left to right and the first raised
exception propagates. -/
def exFilter (p : α → Except PyErr Bool) : List α → Except PyErr (List α)
  | [] => .ok []
  | a :: l =>
      match p a with
      | .error e => .error e
      | .ok b =>
          match exFilter p l with
          | .error e => .error e
          | .ok tl => .ok (if b then a :: tl else tl)

/-- Embeds the zero-cost filter of `perform_rate_shop`:
`[option for option in shipping_options if option.get("totalCarrierCharge", 0) > 0]`. -/
def filterPos (l : List Quote) : Except PyErr (List Quote) :=
  exFilter (fun q => pyGT (getCharge q) 0) l

/-- Embeds the max-price filter of `perform_rate_shop`:
`[option for option in shipping_options if option.get("totalCarrierCharge", 0) <= max_price]`. -/
def filterMaxPrice (max_price : ℚ) (l : List Quote) : Except PyErr (List Quote) :=
  exFilter (fun q => pyLE (getCharge q) max_price) l

/-- The price-filter step: applied only when `max_price > 0`. -/
def priceStep (max_price : ℚ) (l : List Quote) : Except PyErr (List Quote) :=
  if 0 < max_price then filterMaxPrice max_price l else .ok l

/-- The duration condition applied to one quote in `perform_rate_shop`:
min/max estimated days (defaulting to 0) against `duration_value` under the
chosen operator, combined with OR. -/
def durationKeep (op : ComparisonOperator) (v : Int) (q : Quote) : Except PyErr Bool :=
  match quoteMinDays q with
  | .error e => .error e
  | .ok minD =>
      match quoteMaxDays q with
      | .error e => .error e
      | .ok maxD =>
          match op with
          | .less_than => .ok (decide (minD < v) || decide (maxD < v))
          | .less_than_or_equal => .ok (decide (minD ≤ v) || decide (maxD ≤ v))

/-- Embeds the duration-filter loop of `perform_rate_shop` (the
`final_options.append(option)` loop). -/
def durationFilter (op : ComparisonOperator) (v : Int) (l : List Quote) :
    Except PyErr (List Quote) :=
  exFilter (durationKeep op v) l

/-- The duration step: the filter loop runs only when `duration_value > 0`,
otherwise `final_options = shipping_options`. -/
def durationStep (op : ComparisonOperator) (v : Int) (l : List Quote) :
    Except PyErr (List Quote) :=
  if 0 < v then durationFilter op v l else .ok l

/-- Sort keys as CPython computes them before reordering:
`float(x.get("totalCarrierCharge", 0))` for each element, left to right,
paired with the element. -/
def mapKeys : List Quote → Except PyErr (List (ℚ × Quote))
  | [] => .ok []
  | q :: l =>
      match pyFloat (getCharge q) with
      | .error e => .error e
      | .ok k =>
          match mapKeys l with
          | .error e => .error e
          | .ok tl => .ok ((k, q) :: tl)

/-- Ordering of key-quote pairs by key, the order used by `list.sort(key=...)`. -/
def pairLe (a b : ℚ × Quote) : Prop := a.1 ≤ b.1

instance : DecidableRel pairLe := fun a b => inferInstanceAs (Decidable (a.1 ≤ b.1))

instance : IsTotal (ℚ × Quote) pairLe := ⟨fun a b => le_total a.1 b.1⟩

instance : IsTrans (ℚ × Quote) pairLe := ⟨fun _ _ _ h h2 => le_trans h h2⟩

/-- Embeds `try: final_options.sort(key=lambda x: float(x.get("totalCarrierCharge", 0)))
except ValueError: pass`. CPython precomputes the key of every element before
reordering, so a `ValueError` from a key leaves the list unchanged (and is
swallowed by the `except`); any other exception (here `TypeError`) propagates. -/
def sortStep (l : List Quote) : Except PyErr (List Quote) :=
  match mapKeys l with
  | .ok kl => .ok ((kl.insertionSort pairLe).map Prod.snd)
  | .error .valueError => .ok l
  | .error e => .error e

/-- The provider's response to the rate POST: HTTP status, the `rates` value
(`none` when the key is absent or its value is not a list), and the raw body
text used in error messages. -/
structure RateResponse where
  status : Nat
  rates : Option (List Quote)
  bodyText : String
deriving DecidableEq, Repr

/-- The dictionary `perform_rate_shop` returns: either the
`{total_options, filtered_count, shippingOptions}` result or an
`{"error": msg}` dictionary. -/
inductive RateShopReturn where
  | result (total_options : Nat) (filtered_count : Nat) (shippingOptions : List Quote)
  | error (msg : String)
deriving DecidableEq, Repr

/-- The response-processing body of `Ship360Service.perform_rate_shop`.
Mirrors the source order: the 200-with-rates branch applies the zero-charge
filter, the conditional max-price filter, the operator parse, the conditional
duration filter and the guarded sort; every other response (non-200, or 200
whose body has no `rates` list) falls through to the status-and-body-text
error-dictionary return at the end of the method. -/
def rate_shop_response_pipeline (resp : RateResponse)
    (max_price : ℚ) (duration_value : Int) (duration_operator : String) :
    Except PyErr RateShopReturn :=
  if resp.status = 200 then
    match resp.rates with
      | some rates =>
          match filterPos rates with
          | .error e => .error e
          | .ok so1 =>
              match priceStep max_price so1 with
              | .error e => .error e
              | .ok so2 =>
                  match parseComparisonOperator duration_operator with
                  | .error e => .error e
                  | .ok op =>
                      match durationStep op duration_value so2 with
                      | .error e => .error e
                      | .ok final =>
                          match sortStep final with
                          | .error e => .error e
                          | .ok sorted => .ok (.result sorted.length so2.length sorted)
      | none => .ok (.error (toString resp.status ++ " - " ++ resp.bodyText))
  else .ok (.error (toString resp.status ++ " - " ++ resp.bodyText))

/-- Embeds `Ship360Service.perform_rate_shop`, as a function of the bearer
token obtained from `get_sp360_token` and of the provider's response to the
rate POST: a falsy token short-circuits to the token-failure error dictionary,
otherwise the response is processed by `rate_shop_response_pipeline`. -/
def perform_rate_shop (token : Option String) (resp : RateResponse)
    (max_price : ℚ) (duration_value : Int) (duration_operator : String) :
    Except PyErr RateShopReturn :=
  match token with
  | none => .ok (.error "Failed to retrieve bearer token.")
  | some _ => rate_shop_response_pipeline resp max_price duration_value duration_operator

/-! ### Credential fetch (`Ship360Service.get_sp360_token`) -/

/-- The token endpoint's response: HTTP status and the `access_token` field of
the JSON body (`none` when the key is absent). -/
structure TokenEndpointResponse where
  status : Nat
  access_token : Option String
deriving DecidableEq, Repr

/-- Embeds `Ship360Service.get_sp360_token`: the method opens a fresh HTTP
session and POSTs to the token URL unconditionally — there is no cache read or
write anywhere in the method or the class. Returns the token (the
`access_token` field on a 200 response that has one, else `None`) paired with
the number of outbound HTTP requests the call performs, which is always 1. -/
def get_sp360_token (resp : TokenEndpointResponse) : Option String × Nat :=
  ((if resp.status = 200 then resp.access_token else none), 1)

/-- Total outbound token requests across a sequence of `get_sp360_token`
calls, each call seeing the corresponding endpoint response. -/
def tokenRequests (resps : List TokenEndpointResponse) : Nat :=
  (resps.map (fun r => (get_sp360_token r).2)).sum

/-! ### Label payload (`create_shipping_label_request.py` and
`Ship360Service.create_shipment_domestic`) -/

/-- Embeds the `Address` pydantic model of `create_shipping_label_request.py`. -/
structure Address where
  company : String
  addressLine1 : String
  addressLine2 : String
  addressLine3 : String
  cityTown : String
  countryCode : String
  name : String
  phone : String
  postalCode : String
  stateProvince : String
deriving DecidableEq, Repr

/-- Embeds the `Parcel` pydantic model of `create_shipping_label_request.py`. -/
structure Parcel where
  height : Int
  length : Int
  dimUnit : String
  width : Int
  weightUnit : String
  weight : Int
deriving DecidableEq, Repr

/-- Embeds the `ShipmentOptions` pydantic model. -/
structure ShipmentOptions where
  addToManifest : Bool
  packageDescription : String
deriving DecidableEq, Repr

/-- Embeds the `MetadataItem` pydantic model. -/
structure MetadataItem where
  name : String
  value : String
deriving DecidableEq, Repr

/-- Embeds the `ShippingLabel` pydantic model. -/
structure ShippingLabel where
  size : String
  type : String
  fromAddress : Address
  parcel : Parcel
  carrierAccountId : String
  parcelType : String
  serviceId : String
  shipmentOptions : ShipmentOptions
  metadata : List MetadataItem
  toAddress : Address
deriving DecidableEq, Repr

/-- An address as stored on an `Order` record (the dict fields that
`create_shipment_domestic` reads or could read). -/
structure OrderAddress where
  company : String
  addressLine1 : String
  addressLine2 : String
  addressLine3 : String
  cityTown : String
  countryCode : String
  name : String
  phone : String
  postalCode : String
  stateProvince : String
deriving DecidableEq, Repr

/-- The parcel fields of an `Order` record. -/
structure OrderParcel where
  height : Int
  length : Int
  dimUnit : String
  width : Int
  weightUnit : String
  weight : Int
deriving DecidableEq, Repr

/-- An order record as passed to `create_shipment_domestic`. -/
structure Order where
  fromAddress : OrderAddress
  toAddress : OrderAddress
  parcel : OrderParcel
deriving DecidableEq, Repr

/-- Embeds the construction of `json_shipping_label_request` inside
`Ship360Service.create_shipment_domestic` (lines 123-171 of
`ship_360_service.py`), field for field: `company="PB"` and
`addressLine2=""`, `addressLine3=""` on the from-address, literal
`addressLine2=""`, `addressLine3=""` on the to-address, and the hardcoded
`parcelType`, `serviceId`, `shipmentOptions` and `metadata` values. -/
def create_shipment_domestic_payload (order : Order) (carrier_account_id : String)
    (shipping_label_size : String) : ShippingLabel :=
  { size := shipping_label_size
    type := "SHIPPING_LABEL"
    fromAddress :=
      { company := "PB"
        addressLine1 := order.fromAddress.addressLine1
        addressLine2 := ""
        addressLine3 := ""
        cityTown := order.fromAddress.cityTown
        countryCode := order.fromAddress.countryCode
        name := order.fromAddress.name
        phone := order.fromAddress.phone
        postalCode := order.fromAddress.postalCode
        stateProvince := order.fromAddress.stateProvince }
    parcel :=
      { height := order.parcel.height
        length := order.parcel.length
        dimUnit := order.parcel.dimUnit
        width := order.parcel.width
        weightUnit := order.parcel.weightUnit
        weight := order.parcel.weight }
    carrierAccountId := carrier_account_id
    parcelType := "PKG"
    serviceId := "UGA"
    shipmentOptions := { addToManifest := true, packageDescription := "test" }
    metadata := [{ name := "costAccountName", value := "cost account 123" }]
    toAddress :=
      { company := order.toAddress.company
        addressLine1 := order.toAddress.addressLine1
        addressLine2 := ""
        addressLine3 := ""
        cityTown := order.toAddress.cityTown
        countryCode := order.toAddress.countryCode
        name := order.toAddress.name
        phone := order.toAddress.phone
        postalCode := order.toAddress.postalCode
        stateProvince := order.toAddress.stateProvince } }

/-! ### Thread store (`app/services/thread_store.py`) -/

/-- A conversation thread: `ChatHistoryAgentThread(thread_id=session_id)`
holds an identifier and an ordered message history; a freshly constructed
thread has no messages. -/
structure ChatHistoryAgentThread where
  thread_id : String
  messages : List String
deriving DecidableEq, Repr

/-- Embeds `ThreadStore`: the backing dict maps `(user_id, session_id)` keys
to a thread paired with its last-access time (`time.time()` floats modelled
as rationals), plus the TTL. All methods run under the store's lock, so they
are modelled as sequential state transformers. -/
structure ThreadStore where
  store : String × String → Option (ChatHistoryAgentThread × ℚ)
  thread_ttl : ℚ

/-- Embeds `ThreadStore.get_thread`: returns the existing thread refreshing
its last-access time, or creates `ChatHistoryAgentThread(thread_id=session_id)`
and stores it with the current time. -/
def get_thread (ts : ThreadStore) (user_id session_id : String) (now : ℚ) :
    ChatHistoryAgentThread × ThreadStore :=
  match ts.store (user_id, session_id) with
  | some (th, _) =>
      (th, { ts with store := fun k =>
        if k = (user_id, session_id) then some (th, now) else ts.store k })
  | none =>
      let th : ChatHistoryAgentThread := { thread_id := session_id, messages := [] }
      (th, { ts with store := fun k =>
        if k = (user_id, session_id) then some (th, now) else ts.store k })

/-- Embeds `ThreadStore.cleanup_threads`: deletes every key whose
`now - last_access` strictly exceeds the TTL. -/
def cleanup_threads (ts : ThreadStore) (now : ℚ) : ThreadStore :=
  { ts with store := fun k =>
      match ts.store k with
      | some (th, last_access) =>
          if now - last_access > ts.thread_ttl then none else some (th, last_access)
      | none => none }

/-! ### Shipment cancellation (`ShippingPlugin.cancel_shipment`) -/

/-- The provider's response to a cancellation call, with the four fields the
plugin reads from it. -/
structure CancelShipmentResponse where
  carrier : String
  totalCarrierCharge : ℚ
  status : String
  parcelTrackingNumber : String
deriving DecidableEq, Repr

/-- Modelled from the spec: `Ship360Service.cancel_shipment` is not present in
the source tree (only its caller `ShippingPlugin.cancel_shipment` is). Per the
spec it performs a single POST/equivalent to the provider and returns the
provider's cancellation response. The second component counts the outbound
HTTP calls performed. -/
def Ship360Service.cancel_shipment (resp : CancelShipmentResponse) :
    CancelShipmentResponse × Nat :=
  (resp, 1)

/-- The `json_response` dictionary built by `ShippingPlugin.cancel_shipment`. -/
structure CancelShipmentResult where
  carrier : String
  totalCarrierCharge : ℚ
  status : String
  parcelTrackingNumber : String
deriving DecidableEq, Repr

/-- Embeds `ShippingPlugin.cancel_shipment`: awaits the service call and
returns a dictionary with exactly the `carrier`, `totalCarrierCharge`,
`status` and `parcelTrackingNumber` fields of the response. -/
def ShippingPlugin.cancel_shipment (resp : CancelShipmentResponse) :
    CancelShipmentResult × Nat :=
  let api := Ship360Service.cancel_shipment resp
  ({ carrier := api.1.carrier
     totalCarrierCharge := api.1.totalCarrierCharge
     status := api.1.status
     parcelTrackingNumber := api.1.parcelTrackingNumber }, api.2)

/-! ### Lemmas about the embedded operations -/

theorem exFilter_ok_mem {α : Type} {p : α → Except PyErr Bool} :
    ∀ {l l' : List α}, exFilter p l = .ok l' → ∀ a : α, (a ∈ l' ↔ a ∈ l ∧ p a = .ok true) := by
  intro l
  induction l with
  | nil =>
      intro l' h a
      simp only [exFilter, Except.ok.injEq] at h
      subst h
      simp
  | cons b l ih =>
      intro l' h a
      unfold exFilter at h
      split at h
      · cases h
      · rename_i pb hb
        split at h
        · cases h
        · rename_i tl htl
          injection h with h
          subst h
          cases pb with
          | true =>
              constructor
              · intro ha
                rcases List.mem_cons.mp ha with rfl | ha'
                · exact ⟨List.mem_cons_self _ _, hb⟩
                · rcases (ih htl a).mp ha' with ⟨h1, h2⟩
                  exact ⟨List.mem_cons_of_mem _ h1, h2⟩
              · rintro ⟨ha, hpa⟩
                rcases List.mem_cons.mp ha with rfl | ha'
                · simp
                · simp [List.mem_cons, (ih htl a).mpr ⟨ha', hpa⟩]
          | false =>
              simp only [if_neg] at *
              constructor
              · intro ha
                rcases (ih htl a).mp ha with ⟨h1, h2⟩
                exact ⟨List.mem_cons_of_mem _ h1, h2⟩
              · rintro ⟨ha, hpa⟩
                rcases List.mem_cons.mp ha with rfl | ha'
                · rw [hpa] at hb
                  cases hb
                · exact (ih htl a).mpr ⟨ha', hpa⟩

theorem exFilter_ok_subset {α : Type} {p : α → Except PyErr Bool} {l l' : List α}
    (h : exFilter p l = .ok l') : ∀ a ∈ l', a ∈ l :=
  fun a ha => ((exFilter_ok_mem h a).mp ha).1

theorem exFilter_error_of_mem {α : Type} {p : α → Except PyErr Bool} {E : PyErr} :
    ∀ {l : List α}, (∀ b ∈ l, ∀ e, p b = .error e → e = E) →
      (∃ a ∈ l, ∃ e, p a = .error e) → exFilter p l = .error E := by
  intro l
  induction l with
  | nil =>
      rintro _ ⟨a, ha, _⟩
      exact absurd ha (List.not_mem_nil a)
  | cons b l ih =>
      rintro huni ⟨a, ha, e, hpe⟩
      unfold exFilter
      cases hb : p b with
      | error e' =>
          have he' : e' = E := huni b (List.mem_cons_self _ _) e' hb
          simp [hb, he']
      | ok pb =>
          rcases List.mem_cons.mp ha with rfl | ha'
          · rw [hpe] at hb
            cases hb
          · have htl : exFilter p l = .error E :=
              ih (fun c hc => huni c (List.mem_cons_of_mem _ hc)) ⟨a, ha', e, hpe⟩
            simp [hb, htl]

theorem pyGT_zero_ok_true {v : PyVal} :
    pyGT v 0 = .ok true ↔ ∃ c, v = .num c ∧ 0 < c := by
  cases v <;> simp [pyGT]

theorem pyGT_error_typeError {v : PyVal} {c : ℚ} {e : PyErr} :
    pyGT v c = .error e → e = .typeError := by
  cases v <;> simp [pyGT] <;> intro h <;> simp [h]

theorem filterPos_mem {l l' : List Quote} (h : filterPos l = .ok l') (q : Quote) :
    q ∈ l' ↔ q ∈ l ∧ ∃ c, getCharge q = .num c ∧ 0 < c := by
  rw [exFilter_ok_mem h q, pyGT_zero_ok_true]

theorem filterMaxPrice_mem {mp : ℚ} {l l' : List Quote}
    (h : filterMaxPrice mp l = .ok l') (q : Quote) :
    q ∈ l' ↔ q ∈ l ∧ pyLE (getCharge q) mp = .ok true :=
  exFilter_ok_mem h q

theorem priceStep_subset {mp : ℚ} {l l' : List Quote}
    (h : priceStep mp l = .ok l') : ∀ q ∈ l', q ∈ l := by
  unfold priceStep at h
  split at h
  · exact exFilter_ok_subset h
  · injection h with h
    subst h
    exact fun q hq => hq

theorem durationStep_subset {op : ComparisonOperator} {v : Int} {l l' : List Quote}
    (h : durationStep op v l = .ok l') : ∀ q ∈ l', q ∈ l := by
  unfold durationStep at h
  split at h
  · exact exFilter_ok_subset h
  · injection h with h
    subst h
    exact fun q hq => hq

theorem durationKeep_ok_true {op : ComparisonOperator} {v : Int} {q : Quote}
    {mi ma : Int} (hmi : quoteMinDays q = .ok mi) (hma : quoteMaxDays q = .ok ma) :
    durationKeep op v q = .ok true ↔
      ((op = .less_than ∧ (mi < v ∨ ma < v)) ∨
       (op = .less_than_or_equal ∧ (mi ≤ v ∨ ma ≤ v))) := by
  unfold durationKeep
  rw [hmi, hma]
  cases op <;> simp

theorem mapKeys_ok_of_num :
    ∀ {l : List Quote}, (∀ q ∈ l, ∃ c, getCharge q = .num c) →
      mapKeys l = .ok (l.map fun q => (chargeQ q, q)) := by
  intro l
  induction l with
  | nil => intro _; rfl
  | cons q l ih =>
      intro h
      obtain ⟨c, hc⟩ := h q (List.mem_cons_self _ _)
      have h1 : pyFloat (getCharge q) = .ok (chargeQ q) := by
        rw [hc]
        simp [pyFloat, chargeQ, hc]
      have h2 : mapKeys l = .ok (l.map fun q => (chargeQ q, q)) :=
        ih (fun r hr => h r (List.mem_cons_of_mem _ hr))
      unfold mapKeys
      simp [h1, h2]

theorem mapKeys_ok_snd : ∀ {l : List Quote} {kl : List (ℚ × Quote)},
    mapKeys l = .ok kl → kl.map Prod.snd = l := by
  intro l
  induction l with
  | nil =>
      intro kl h
      simp only [mapKeys, Except.ok.injEq] at h
      subst h
      rfl
  | cons q l ih =>
      intro kl h
      unfold mapKeys at h
      split at h
      · cases h
      · split at h
        · cases h
        · rename_i tl htl
          injection h with h
          subst h
          simp [ih htl]

theorem sortStep_perm {l s : List Quote} (h : sortStep l = .ok s) : s.Perm l := by
  unfold sortStep at h
  split at h
  · rename_i kl hk
    injection h with h
    subst h
    have h1 := (List.perm_insertionSort pairLe kl).map Prod.snd
    rw [mapKeys_ok_snd hk] at h1
    exact h1
  · injection h with h
    subst h
    exact List.Perm.refl _
  · cases h

theorem sortStep_eq_of_num {l : List Quote}
    (hnum : ∀ q ∈ l, ∃ c, getCharge q = .num c) :
    sortStep l =
      .ok (((l.map fun q => (chargeQ q, q)).insertionSort pairLe).map Prod.snd) := by
  unfold sortStep
  rw [mapKeys_ok_of_num hnum]

theorem sortStep_sorted_of_num {l s : List Quote}
    (hnum : ∀ q ∈ l, ∃ c, getCharge q = .num c) (h : sortStep l = .ok s) :
    s.Pairwise (fun q1 q2 => chargeQ q1 ≤ chargeQ q2) := by
  rw [sortStep_eq_of_num hnum] at h
  injection h with h
  subst h
  have hsorted : List.Sorted pairLe ((l.map fun q => (chargeQ q, q)).insertionSort pairLe) :=
    List.sorted_insertionSort pairLe _
  have hmemf : ∀ x ∈ (l.map fun q => (chargeQ q, q)).insertionSort pairLe,
      x.1 = chargeQ x.2 := by
    intro x hx
    have hx' : x ∈ l.map fun q => (chargeQ q, q) := (List.mem_insertionSort pairLe).mp hx
    rcases List.mem_map.mp hx' with ⟨q, _, rfl⟩
    rfl
  have h2 : List.Pairwise (fun x y : ℚ × Quote => chargeQ x.2 ≤ chargeQ y.2)
      ((l.map fun q => (chargeQ q, q)).insertionSort pairLe) := by
    refine List.Pairwise.imp_of_mem ?_ hsorted
    intro x y hx hy hxy
    rw [← hmemf x hx, ← hmemf y hy]
    exact hxy
  exact List.pairwise_map.mpr h2

theorem perform_rate_shop_ok_result {tk : String} {resp : RateResponse} {mp : ℚ}
    {v : Int} {dop : String} {a fc : Nat} {opts : List Quote}
    (h : perform_rate_shop (some tk) resp mp v dop = .ok (.result a fc opts)) :
    ∃ l0 so1 so2 op final,
      resp.rates = some l0 ∧ resp.status = 200 ∧
      filterPos l0 = .ok so1 ∧ priceStep mp so1 = .ok so2 ∧
      parseComparisonOperator dop = .ok op ∧ durationStep op v so2 = .ok final ∧
      sortStep final = .ok opts ∧ a = opts.length ∧ fc = so2.length := by
  replace h : rate_shop_response_pipeline resp mp v dop = .ok (.result a fc opts) := h
  unfold rate_shop_response_pipeline at h
  split at h
  · rename_i hst
    split at h
    · rename_i rates hrates
      split at h
      · cases h
      · rename_i so1 hso1
        split at h
        · cases h
        · rename_i so2 hso2
          split at h
          · cases h
          · rename_i op hop
            split at h
            · cases h
            · rename_i final hfinal
              split at h
              · cases h
              · rename_i sorted hsorted
                simp only [Except.ok.injEq, RateShopReturn.result.injEq] at h
                obtain ⟨ha, hfc, hs⟩ := h
                subst hs
                exact ⟨rates, so1, so2, op, final, hrates, hst,
                  hso1, hso2, hop, hfinal, hsorted, ha.symm, hfc.symm⟩
    · cases h
  · cases h

/-! ### Concrete fixtures (the spec's worked example: quotes with charge 0,
charge 25 with min 2 and max 4 days, charge 10 with min 1 and max 2 days) -/

/-- Ten-dollar quote, 1 to 2 estimated days. -/
def cexQ10 : Quote :=
  { carrier := "usps", totalCarrierCharge := some (.num 10),
    deliveryCommitment := some { minEstimatedNumberOfDays := some (.num 1),
                                 maxEstimatedNumberOfDays := some (.num 2) } }

/-- Twenty-five-dollar quote, 2 to 4 estimated days. -/
def cexQ25 : Quote :=
  { carrier := "ups", totalCarrierCharge := some (.num 25),
    deliveryCommitment := some { minEstimatedNumberOfDays := some (.num 2),
                                 maxEstimatedNumberOfDays := some (.num 4) } }

/-- Placeholder quote with charge 0. -/
def cexQ0 : Quote :=
  { carrier := "fedex", totalCarrierCharge := some (.num 0), deliveryCommitment := none }

/-- Quote with no deliveryCommitment object at all. -/
def cexQNoCommit : Quote :=
  { carrier := "dhl", totalCarrierCharge := some (.num 7), deliveryCommitment := none }

/-- Quote whose totalCarrierCharge is a non-numeric string. -/
def cexQBad : Quote :=
  { carrier := "bad", totalCarrierCharge := some (.str "unavailable"),
    deliveryCommitment := none }

/-- A 200 response carrying the spec's three example quotes. -/
def cexResp : RateResponse :=
  { status := 200, rates := some [cexQ0, cexQ25, cexQ10], bodyText := "" }

/-- A 200 response that also contains the commitment-free quote. -/
def cexRespNoCommit : RateResponse :=
  { status := 200, rates := some [cexQ0, cexQ25, cexQNoCommit, cexQ10], bodyText := "" }

/-- A 200 response containing a quote with a non-numeric charge. -/
def cexRespBad : RateResponse :=
  { status := 200, rates := some [cexQ10, cexQBad, cexQ25], bodyText := "" }

/-- A 200 response whose body has no usable rates list. -/
def cexRespNoRates : RateResponse :=
  { status := 200, rates := none, bodyText := "no rates" }

/-! ### Claims -/

/-- Claim C1: for every quote list returned by the provider, whenever
`perform_rate_shop` returns a result dictionary, its `shippingOptions` list is
sorted ascending by `totalCarrierCharge`, and every entry has a numeric,
strictly positive `totalCarrierCharge`. -/
theorem rate_shop_result_sorted_and_positive
    (tk : String) (resp : RateResponse) (mp : ℚ) (v : Int) (dop : String)
    (a fc : Nat) (opts : List Quote)
    (h : perform_rate_shop (some tk) resp mp v dop = .ok (.result a fc opts)) :
    opts.Pairwise (fun q1 q2 => chargeQ q1 ≤ chargeQ q2) ∧
    ∀ q ∈ opts, ∃ c, getCharge q = .num c ∧ 0 < c := by
  obtain ⟨l0, so1, so2, op, final, _, _, hso1, hso2, _, hfinal, hsort, _, _⟩ :=
    perform_rate_shop_ok_result h
  have hpos1 : ∀ q ∈ so1, ∃ c, getCharge q = .num c ∧ 0 < c :=
    fun q hq => ((filterPos_mem hso1 q).mp hq).2
  have hposf : ∀ q ∈ final, ∃ c, getCharge q = .num c ∧ 0 < c :=
    fun q hq => hpos1 q (priceStep_subset hso2 q (durationStep_subset hfinal q hq))
  have hnum : ∀ q ∈ final, ∃ c, getCharge q = .num c :=
    fun q hq => ⟨(hposf q hq).choose, (hposf q hq).choose_spec.1⟩
  refine ⟨sortStep_sorted_of_num hnum hsort, ?_⟩
  intro q hq
  exact hposf q ((sortStep_perm hsort).mem_iff.mp hq)

/-- Witness for C1 at the spec's example: the zero-charge quote is dropped and
the survivors come back sorted 10 before 25. -/
theorem rate_shop_result_sorted_and_positive_witness :
    ([cexQ10, cexQ25]).Pairwise (fun q1 q2 => chargeQ q1 ≤ chargeQ q2) ∧
    ∀ q ∈ [cexQ10, cexQ25], ∃ c, getCharge q = .num c ∧ 0 < c :=
  rate_shop_result_sorted_and_positive "t" cexResp 0 0 "less_than_or_equal" 2 2
    [cexQ10, cexQ25] rfl

/-- Claim C3: for duration_value > 0, the quotes kept by `perform_rate_shop`
are exactly those of the price-filtered list whose min OR max estimated days
satisfies the comparison with duration_value under the chosen operator — OR
semantics, not AND. -/
theorem rate_shop_duration_or_semantics
    (tk : String) (resp : RateResponse) (mp : ℚ) (v : Int) (dop : String)
    (a fc : Nat) (opts : List Quote) (l0 so1 so2 : List Quote)
    (op : ComparisonOperator) (q : Quote) (mi ma : Int)
    (h : perform_rate_shop (some tk) resp mp v dop = .ok (.result a fc opts))
    (hv : 0 < v)
    (hl0 : resp.rates = some l0)
    (hso1 : filterPos l0 = .ok so1)
    (hso2 : priceStep mp so1 = .ok so2)
    (hop : parseComparisonOperator dop = .ok op)
    (hmi : quoteMinDays q = .ok mi)
    (hma : quoteMaxDays q = .ok ma) :
    q ∈ opts ↔
      q ∈ so2 ∧
        ((op = .less_than ∧ (mi < v ∨ ma < v)) ∨
         (op = .less_than_or_equal ∧ (mi ≤ v ∨ ma ≤ v))) := by
  obtain ⟨l0', so1', so2', op', final, hl0', _, hso1', hso2', hop', hfinal, hsort, _, _⟩ :=
    perform_rate_shop_ok_result h
  rw [hl0] at hl0'
  injection hl0' with e1
  subst e1
  rw [hso1] at hso1'
  injection hso1' with e2
  subst e2
  rw [hso2] at hso2'
  injection hso2' with e3
  subst e3
  rw [hop] at hop'
  injection hop' with e4
  subst e4
  unfold durationStep at hfinal
  rw [if_pos hv] at hfinal
  rw [(sortStep_perm hsort).mem_iff, exFilter_ok_mem hfinal q,
    durationKeep_ok_true hmi hma]

/-- Witness for C3 at the spec's example with duration_value 3 and operator
less_than: the 2-to-4-day quote is kept because its min 2 is below 3, even
though its max 4 is not. -/
theorem rate_shop_duration_or_semantics_witness :
    cexQ25 ∈ [cexQ10, cexQ25] ↔
      cexQ25 ∈ [cexQ25, cexQ10] ∧
        ((ComparisonOperator.less_than = .less_than ∧ ((2 : Int) < 3 ∨ (4 : Int) < 3)) ∨
         (ComparisonOperator.less_than = .less_than_or_equal ∧
           ((2 : Int) ≤ 3 ∨ (4 : Int) ≤ 3))) :=
  rate_shop_duration_or_semantics "t" cexResp 0 3 "less_than" 2 2
    [cexQ10, cexQ25] [cexQ0, cexQ25, cexQ10] [cexQ25, cexQ10] [cexQ25, cexQ10]
    .less_than cexQ25 2 4 rfl (by decide) rfl rfl rfl rfl rfl rfl

/-- Claim C4 counterexample: with max_price 15 over the spec's example quotes,
the result's filtered_count is 1 — the count after the max-price filter — while
the count immediately after dropping non-positive charges is 2. -/
theorem rate_shop_filtered_count_counterexample :
    perform_rate_shop (some "t") cexResp 15 0 "less_than_or_equal"
        = .ok (.result 1 1 [cexQ10]) ∧
    filterPos [cexQ0, cexQ25, cexQ10] = .ok [cexQ25, cexQ10] ∧
    (1 : Nat) ≠ 2 :=
  ⟨rfl, rfl, by decide⟩

/-- Claim C4 (amended): the result's filtered_count equals the length of the
quote list after dropping non-positive charges AND after the max-price filter
(when max_price > 0) — the count immediately before the duration filter, not
before the max-price filter. -/
theorem rate_shop_filtered_count_pre_duration
    (tk : String) (resp : RateResponse) (mp : ℚ) (v : Int) (dop : String)
    (a fc : Nat) (opts : List Quote)
    (h : perform_rate_shop (some tk) resp mp v dop = .ok (.result a fc opts)) :
    ∃ l0 so1 so2, resp.rates = some l0 ∧ filterPos l0 = .ok so1 ∧
      priceStep mp so1 = .ok so2 ∧ fc = so2.length := by
  obtain ⟨l0, so1, so2, _, _, h1, _, h3, h4, _, _, _, _, h9⟩ :=
    perform_rate_shop_ok_result h
  exact ⟨l0, so1, so2, h1, h3, h4, h9⟩

/-- Witness for the amended C4 at the max-price-15 input. -/
theorem rate_shop_filtered_count_pre_duration_witness :
    ∃ l0 so1 so2, cexResp.rates = some l0 ∧ filterPos l0 = .ok so1 ∧
      priceStep 15 so1 = .ok so2 ∧ 1 = so2.length :=
  rate_shop_filtered_count_pre_duration "t" cexResp 15 0 "less_than_or_equal" 1 1
    [cexQ10] rfl

/-- Claim C5: evaluation at the failing input — on a 200 response whose body
has no rates list, `perform_rate_shop` returns the error dictionary built from
the status and body text (the return the source labels `Non-200 response`),
not an empty result. -/
theorem rate_shop_malformed_rates_returns_error :
    perform_rate_shop (some "t") cexRespNoRates 0 0 "less_than_or_equal" =
      .ok (.error "200 - no rates") :=
  rfl

/-- Claim C6 counterexample: a quote with a non-numeric totalCarrierCharge is
not given sort key 0 — `perform_rate_shop` raises `TypeError` instead of
returning a list ordered as if that charge were 0. -/
theorem rate_shop_nonnumeric_charge_counterexample :
    perform_rate_shop (some "t") cexRespBad 0 0 "less_than_or_equal" =
      .error .typeError :=
  rfl

/-- Claim C6 (amended): a quote whose totalCarrierCharge is present but
non-numeric makes `perform_rate_shop` raise `TypeError` at the zero-charge
filter, before the sort is ever reached; only numeric charges can reach the
sort, whose `except ValueError` guard skips sorting entirely rather than
assigning key 0. -/
theorem rate_shop_nonnumeric_charge_raises
    (tk : String) (resp : RateResponse) (mp : ℚ) (v : Int) (dop : String)
    (l0 : List Quote) (q : Quote)
    (hst : resp.status = 200) (hl0 : resp.rates = some l0) (hq : q ∈ l0)
    (hnn : ∀ c, getCharge q ≠ .num c) :
    perform_rate_shop (some tk) resp mp v dop = .error .typeError := by
  have hfp : filterPos l0 = .error .typeError := by
    apply exFilter_error_of_mem
    · intro b _ e he
      exact pyGT_error_typeError he
    · refine ⟨q, hq, .typeError, ?_⟩
      cases hv : getCharge q with
      | num c => exact absurd hv (hnn c)
      | str s => simp [pyGT, hv]
      | null => simp [pyGT, hv]
  show rate_shop_response_pipeline resp mp v dop = .error .typeError
  unfold rate_shop_response_pipeline
  rw [if_pos hst]
  simp only [hl0, hfp]

/-- Witness for the amended C6: the response containing the string-charge
quote raises `TypeError` under arbitrary other parameters. -/
theorem rate_shop_nonnumeric_charge_raises_witness :
    perform_rate_shop (some "t") cexRespBad 1 2 "less_than" = .error .typeError :=
  rate_shop_nonnumeric_charge_raises "t" cexRespBad 1 2 "less_than"
    [cexQ10, cexQBad, cexQ25] cexQBad rfl rfl (by simp)
    (fun c => by simp [getCharge, cexQBad])

/-- Claim C10 (implicit): a quote with no deliveryCommitment object (or with
both estimated-days fields missing) has min and max default to 0, so for every
duration_value > 0 and either operator it passes the duration filter, and —
having survived the charge filters, which do not look at the commitment — it
appears in the result's shippingOptions. -/
theorem rate_shop_missing_commitment_always_passes
    (tk : String) (resp : RateResponse) (mp : ℚ) (v : Int) (dop : String)
    (a fc : Nat) (opts : List Quote) (l0 : List Quote) (q : Quote) (c : ℚ)
    (h : perform_rate_shop (some tk) resp mp v dop = .ok (.result a fc opts))
    (hv : 0 < v)
    (hl0 : resp.rates = some l0)
    (hq : q ∈ l0)
    (hcommit : (getCommitment q).minEstimatedNumberOfDays = none ∧
               (getCommitment q).maxEstimatedNumberOfDays = none)
    (hc : getCharge q = .num c) (hcpos : 0 < c)
    (hprice : mp ≤ 0 ∨ c ≤ mp) :
    q ∈ opts := by
  obtain ⟨l0', so1, so2, op, final, hl0', _, hso1, hso2, _, hfinal, hsort, _, _⟩ :=
    perform_rate_shop_ok_result h
  rw [hl0] at hl0'
  injection hl0' with e1
  subst e1
  have hq1 : q ∈ so1 := (filterPos_mem hso1 q).mpr ⟨hq, c, hc, hcpos⟩
  have hq2 : q ∈ so2 := by
    unfold priceStep at hso2
    split at hso2
    · rename_i hmp
      refine (filterMaxPrice_mem hso2 q).mpr ⟨hq1, ?_⟩
      rcases hprice with hmp' | hle
      · exact absurd hmp (not_lt.mpr hmp')
      · rw [hc]
        simp [pyLE, hle]
    · injection hso2 with e
      subst e
      exact hq1
  have hmi : quoteMinDays q = .ok 0 := by
    simp [quoteMinDays, hcommit.1, pyInt, truncRat]
  have hma : quoteMaxDays q = .ok 0 := by
    simp [quoteMaxDays, hcommit.2, pyInt, truncRat]
  have hkeep : durationKeep op v q = .ok true := by
    rw [durationKeep_ok_true hmi hma]
    cases op with
    | less_than => exact Or.inl ⟨rfl, Or.inl hv⟩
    | less_than_or_equal => exact Or.inr ⟨rfl, Or.inl (le_of_lt hv)⟩
  have hqf : q ∈ final := by
    unfold durationStep at hfinal
    rw [if_pos hv] at hfinal
    exact (exFilter_ok_mem hfinal q).mpr ⟨hq2, hkeep⟩
  exact (sortStep_perm hsort).mem_iff.mpr hqf

/-- Witness for C10: the commitment-free 7-dollar quote appears in the result
even under duration_value 3 with operator less_than. -/
theorem rate_shop_missing_commitment_always_passes_witness :
    cexQNoCommit ∈ [cexQNoCommit, cexQ10, cexQ25] :=
  rate_shop_missing_commitment_always_passes "t" cexRespNoCommit 0 3 "less_than" 3 3
    [cexQNoCommit, cexQ10, cexQ25] [cexQ0, cexQ25, cexQNoCommit, cexQ10] cexQNoCommit 7
    rfl (by decide) rfl (by simp) ⟨rfl, rfl⟩ rfl (by norm_num) (Or.inl (by norm_num))

/-- Claim C2: evaluation of the code against the memoization claim —
`get_sp360_token` has no cache: every call, including one immediately after a
successful fetch of a still-valid token, performs exactly one outbound POST,
so two calls perform two outbound requests instead of one. -/
theorem get_sp360_token_no_memoization (r1 r2 : TokenEndpointResponse) :
    (get_sp360_token r1).2 = 1 ∧
    tokenRequests [r1, r2] = 2 ∧
    (get_sp360_token { status := 200, access_token := some "tok" }).1 = some "tok" :=
  ⟨rfl, rfl, rfl⟩

/-- A concrete order whose from-address has a company and whose addresses
carry nonempty second address lines. -/
def cexOrder : Order where
  fromAddress :=
    { company := "Acme Co"
      addressLine1 := "1 Main St"
      addressLine2 := "Suite 5"
      addressLine3 := ""
      cityTown := "Springfield"
      countryCode := "US"
      name := "Alice"
      phone := "555-0100"
      postalCode := "11111"
      stateProvince := "IL" }
  toAddress :=
    { company := "Globex"
      addressLine1 := "2 Oak Ave"
      addressLine2 := "Apt 9"
      addressLine3 := ""
      cityTown := "Shelbyville"
      countryCode := "US"
      name := "Bob"
      phone := "555-0200"
      postalCode := "22222"
      stateProvince := "IL" }
  parcel :=
    { height := 4
      length := 10
      dimUnit := "IN"
      width := 6
      weightUnit := "LBS"
      weight := 2 }

/-- Claim C7 counterexample: reading the address fields back from the payload
does not return the order's values — fromAddress.company is replaced by the
hardcoded string PB and the to-address second line is emptied. -/
theorem create_shipment_payload_roundtrip_counterexample :
    ((create_shipment_domestic_payload cexOrder "ca1" "DOC_4X6").fromAddress.company
        = "PB" ∧ cexOrder.fromAddress.company = "Acme Co" ∧ "PB" ≠ "Acme Co") ∧
    ((create_shipment_domestic_payload cexOrder "ca1" "DOC_4X6").toAddress.addressLine2
        = "" ∧ cexOrder.toAddress.addressLine2 = "Apt 9" ∧ "" ≠ "Apt 9") :=
  ⟨⟨rfl, rfl, by decide⟩, ⟨rfl, rfl, by decide⟩⟩

/-- Claim C7 (amended): the label payload copies addressLine1, cityTown,
countryCode, name, phone, postalCode and stateProvince of both addresses, and
the to-address company, unchanged from the order; but fromAddress.company is
hardcoded to PB and addressLine2 and addressLine3 of both addresses are set to
the empty string, so those fields do not round-trip. -/
theorem create_shipment_payload_roundtrip_partial (order : Order) (cid sz : String) :
    (create_shipment_domestic_payload order cid sz).fromAddress =
      { company := "PB",
        addressLine1 := order.fromAddress.addressLine1,
        addressLine2 := "", addressLine3 := "",
        cityTown := order.fromAddress.cityTown,
        countryCode := order.fromAddress.countryCode,
        name := order.fromAddress.name,
        phone := order.fromAddress.phone,
        postalCode := order.fromAddress.postalCode,
        stateProvince := order.fromAddress.stateProvince } ∧
    (create_shipment_domestic_payload order cid sz).toAddress =
      { company := order.toAddress.company,
        addressLine1 := order.toAddress.addressLine1,
        addressLine2 := "", addressLine3 := "",
        cityTown := order.toAddress.cityTown,
        countryCode := order.toAddress.countryCode,
        name := order.toAddress.name,
        phone := order.toAddress.phone,
        postalCode := order.toAddress.postalCode,
        stateProvince := order.toAddress.stateProvince } :=
  ⟨rfl, rfl⟩

/-- Claim C8: `cancel_shipment` performs a single outbound call and returns a
dictionary holding exactly the provider's carrier, totalCarrierCharge, status
and parcelTrackingNumber. -/
theorem cancel_shipment_single_call_and_fields (resp : CancelShipmentResponse) :
    ShippingPlugin.cancel_shipment resp =
      ({ carrier := resp.carrier,
         totalCarrierCharge := resp.totalCarrierCharge,
         status := resp.status,
         parcelTrackingNumber := resp.parcelTrackingNumber }, 1) :=
  rfl

/-- Claim C9: a thread whose lastAccess is older than the TTL at sweep time is
absent from the store after `cleanup_threads`, and a subsequent `get_thread`
for the same key returns a freshly created, empty thread (and stores it with
the new access time) rather than the old one. -/
theorem thread_expired_evicted_and_recreated
    (ts : ThreadStore) (u s : String) (th : ChatHistoryAgentThread)
    (la now now2 : ℚ)
    (hstored : ts.store (u, s) = some (th, la))
    (hexpired : now - la > ts.thread_ttl) :
    (cleanup_threads ts now).store (u, s) = none ∧
    (get_thread (cleanup_threads ts now) u s now2).1 =
      { thread_id := s, messages := [] } ∧
    ((get_thread (cleanup_threads ts now) u s now2).2).store (u, s) =
      some ({ thread_id := s, messages := [] }, now2) := by
  have h1 : (cleanup_threads ts now).store (u, s) = none := by
    unfold cleanup_threads
    simp [hstored, hexpired]
  refine ⟨h1, ?_, ?_⟩
  · unfold get_thread
    simp [h1]
  · unfold get_thread
    simp [h1]

/-- A concrete thread store with one thread last accessed at time 0 under a
3600-second TTL. -/
def cexThreadStore : ThreadStore :=
  { store := fun k =>
      if k = ("user1", "sess1") then
        some ({ thread_id := "sess1", messages := ["hi"] }, 0)
      else none,
    thread_ttl := 3600 }

/-- Witness for C9: sweeping at time 4000 evicts the thread last accessed at
time 0, and the next `get_thread` returns a fresh empty thread. -/
theorem thread_expired_evicted_and_recreated_witness :
    (cleanup_threads cexThreadStore 4000).store ("user1", "sess1") = none ∧
    (get_thread (cleanup_threads cexThreadStore 4000) "user1" "sess1" 4100).1 =
      { thread_id := "sess1", messages := [] } ∧
    ((get_thread (cleanup_threads cexThreadStore 4000) "user1" "sess1" 4100).2).store
        ("user1", "sess1") =
      some ({ thread_id := "sess1", messages := [] }, 4100) :=
  thread_expired_evicted_and_recreated cexThreadStore "user1" "sess1"
    { thread_id := "sess1", messages := ["hi"] } 0 4000 4100
    (by simp [cexThreadStore]) (by norm_num [cexThreadStore])

end Ship360
